import Mathlib

/-!
Shallow embedding of the Task Orchestration & Replay Engine.

The backend (FastAPI service, `OrchestratorAgent` plus the HTTP endpoints)
is translated into pure Lean functions: the Redis store becomes an explicit
association list threaded through the endpoint functions, Python floats
become rationals (all progress arithmetic here is exact division of small
naturals, where float and rational semantics agree), `uuid.uuid4()` draws
are abstracted as an id supply `ids : Nat -> String`, and raised
`HTTPException`s become explicit error values.  The frontend replay
animation loop (`TaskReplay.tsx`) and the frontend error classifier
(`api.ts`) are embedded as state-transition functions.
-/

/-- Task and subtask state constants of the backend. -/
def PENDING : String := "pending"

/-- See `PENDING`. -/
def IN_PROGRESS : String := "in_progress"

/-- See `PENDING`. -/
def COMPLETED : String := "completed"

/-- See `PENDING`. -/
def FAILED : String := "failed"

/-- Capability type constants of the backend. -/
def WEB_RESEARCH : String := "web_research"

/-- See `WEB_RESEARCH`. -/
def CODE_GENERATION : String := "code_generation"

/-- See `WEB_RESEARCH`. -/
def DATA_ANALYSIS : String := "data_analysis"

/-- See `WEB_RESEARCH`. -/
def CONTENT_CREATION : String := "content_creation"

/-- The `Subtask` pydantic model: id, type, status, optional result and
error, progress (default 0.0). -/
structure Subtask where
  id : String
  type : String
  status : String
  result : Option String := none
  error : Option String := none
  progress : ℚ := 0
deriving DecidableEq, Repr

/-- The `TaskResponse` pydantic model: task_id, status, optional result and
error, progress (default 0.0), list of subtasks (default empty). -/
structure TaskResponse where
  task_id : String
  status : String
  result : Option String := none
  error : Option String := none
  progress : ℚ := 0
  subtasks : List Subtask := []
deriving DecidableEq, Repr

/-- The `TaskRequest` pydantic model: task description, context bag,
priority (default 1), optional agent type.  The description is kept as a
character list so that Python's case-insensitive substring tests can be
stated directly. -/
structure TaskRequest where
  task : List Char
  context : List (String × String) := []
  priority : Int := 1
  agent_type : Option String := none
deriving DecidableEq, Repr

/-- Python's `pat in s` for strings: `startsWithL s pat` states that `pat`
is a prefix of `s` (character lists). -/
def startsWithL : List Char → List Char → Bool
  | _, [] => true
  | [], _ :: _ => false
  | a :: as, b :: bs => a == b && startsWithL as bs

/-- Python's `pat in s` substring test on character lists. -/
def hasSub (pat : List Char) : List Char → Bool
  | [] => pat.isEmpty
  | c :: rest => startsWithL (c :: rest) pat || hasSub pat rest

/-- Python's `str.lower()` (the keywords involved are ASCII). -/
def lowerL (s : List Char) : List Char := s.map Char.toLower

/-- A fresh planner draft as built inside `plan_task`: only id, type and
status are passed; the remaining fields take their pydantic defaults. -/
def mkDraft (id ty : String) : Subtask :=
  { id := id, type := ty, status := PENDING }

/-- `OrchestratorAgent.plan_task`: appends one draft per matching keyword
in the lowercased description, in the fixed order research / code /
analyze / write.  The `uuid.uuid4()` calls are abstracted by the id supply
`ids`, drawn in order of appearance. -/
def plan_task (ids : ℕ → String) (task : List Char) : List Subtask :=
  let low := lowerL task
  let s0 : List Subtask := []
  let s1 := if hasSub ("research".toList) low then
    s0 ++ [mkDraft (ids s0.length) WEB_RESEARCH] else s0
  let s2 := if hasSub ("code".toList) low then
    s1 ++ [mkDraft (ids s1.length) CODE_GENERATION] else s1
  let s3 := if hasSub ("analyze".toList) low then
    s2 ++ [mkDraft (ids s2.length) DATA_ANALYSIS] else s2
  let s4 := if hasSub ("write".toList) low then
    s3 ++ [mkDraft (ids s3.length) CONTENT_CREATION] else s3
  s4

/-- `OrchestratorAgent.validate_task`: a request is valid exactly when its
description is non-empty (`if not task.task: return False`). -/
def validate_task (req : TaskRequest) : Bool :=
  if req.task.isEmpty then false else true

/-- The result string written into a completed subtask inside
`execute_task`. -/
def completedResult (st : Subtask) : String :=
  "Subtask " ++ st.id ++ " completed"

/-- The in-place mutation of one pending subtask inside `execute_task`'s
loop body: `progress = 1.0; status = COMPLETED; result = ...` (the
transient `IN_PROGRESS` assignment is overwritten within the same
iteration). -/
def completeSub (st : Subtask) : Subtask :=
  { st with
    progress := 1
    status := COMPLETED
    result := some (completedResult st) }

/-- `completed = sum(1 for st in task.subtasks if st.status == COMPLETED)`. -/
def countCompleted (l : List Subtask) : ℕ :=
  (l.filter (fun st => st.status == COMPLETED)).length

/-- `task.progress = completed / total if total > 0 else 0`. -/
def progressOf (l : List Subtask) : ℚ :=
  if 0 < l.length then (countCompleted l : ℚ) / (l.length : ℚ) else 0

/-- The `for subtask in task.subtasks` loop of `execute_task`, as a pure
recursion: `done` is the already-visited prefix, the second argument the
remaining suffix, and the rational the task's current progress.  Returns
the final subtask list and progress. -/
def runLoop : List Subtask → List Subtask → ℚ → List Subtask × ℚ
  | done, [], prog => (done, prog)
  | done, st :: rest, prog =>
    if st.status == PENDING then
      runLoop (done ++ [completeSub st]) rest
        (progressOf (done ++ completeSub st :: rest))
    else
      runLoop (done ++ [st]) rest prog

/-- The sequence of progress values written to Redis by the loop of
`execute_task` (one `redis_client.set` per executed subtask). -/
def loopPersisted : List Subtask → List Subtask → ℚ → List ℚ
  | _, [], _ => []
  | done, st :: rest, prog =>
    if st.status == PENDING then
      progressOf (done ++ completeSub st :: rest) ::
        loopPersisted (done ++ [completeSub st]) rest
          (progressOf (done ++ completeSub st :: rest))
    else
      loopPersisted (done ++ [st]) rest prog

/-- `OrchestratorAgent.execute_task` on an in-memory task (the Redis
round-trip of an existing task is the identity on the model): run the
loop, then set status to `COMPLETED` when every subtask is completed. -/
def executeTask (t : TaskResponse) : TaskResponse :=
  let r := runLoop [] t.subtasks t.progress
  let t' := { t with subtasks := r.1, progress := r.2 }
  if r.1.all (fun st => st.status == COMPLETED) then
    { t' with status := COMPLETED }
  else t'

/-- All progress values written to Redis during `execute_task`: the loop
writes, then (when all subtasks ended completed) the final status write,
which re-persists the same progress. -/
def executeWrites (t : TaskResponse) : List ℚ :=
  let r := runLoop [] t.subtasks t.progress
  loopPersisted [] t.subtasks t.progress ++
    (if r.1.all (fun st => st.status == COMPLETED) then [r.2] else [])

/-- The in-memory task snapshot with the given subtask list and progress,
all other fields as in `t0` (the loop of `execute_task` never touches
them). -/
def stateOf (t0 : TaskResponse) (subs : List Subtask) (prog : ℚ) :
    TaskResponse :=
  { t0 with subtasks := subs, progress := prog }

/-- The successive in-memory task states produced by the loop of
`execute_task`: for each pending subtask, first the state right after
`subtask.status = IN_PROGRESS` (the dispatch), then the state after the
subtask completed and the task progress was recomputed. -/
def loopStates (t0 : TaskResponse) : List Subtask → List Subtask → ℚ →
    List TaskResponse
  | _, [], _ => []
  | done, st :: rest, prog =>
    if st.status == PENDING then
      stateOf t0 (done ++ { st with status := IN_PROGRESS } :: rest) prog ::
      stateOf t0 (done ++ completeSub st :: rest)
        (progressOf (done ++ completeSub st :: rest)) ::
      loopStates t0 (done ++ [completeSub st]) rest
        (progressOf (done ++ completeSub st :: rest))
    else
      loopStates t0 (done ++ [st]) rest prog

/-- Every observable task state over the run of `execute_task`: the stored
initial state, each in-loop state, and the final state. -/
def executeStates (t : TaskResponse) : List TaskResponse :=
  t :: (loopStates t [] t.subtasks t.progress ++ [executeTask t])

/-- A concrete submit-created task used in several scratch checks. -/
def sampleTask : TaskResponse :=
  { task_id := "tid", status := PENDING, progress := 0,
    subtasks := [mkDraft "a" WEB_RESEARCH, mkDraft "b" CONTENT_CREATION] }

/-- A task with an empty subtask list, as `submit_task` creates for a
description matching no capability keyword. -/
def emptySubtaskTask : TaskResponse :=
  { task_id := "e", status := PENDING, progress := 0, subtasks := [] }

/-- A raised `fastapi.HTTPException` (status code and detail string). -/
structure HTTPError where
  status_code : ℕ
  detail : String
deriving DecidableEq, Repr

/-- Python `str(e)` on a starlette/fastapi `HTTPException`:
the string is the status code, a colon and the detail. -/
def strOfHTTPError (e : HTTPError) : String :=
  toString e.status_code ++ ": " ++ e.detail

/-- The Redis store: an association list from keys to task snapshots (the
JSON serialise/deserialise round-trip of `TaskResponse` is the identity on
the model). -/
def RedisStore : Type := List (String × TaskResponse)

instance : DecidableEq RedisStore := by
  unfold RedisStore
  infer_instance

/-- `redis_client.set key value`. -/
def storeSet (s : RedisStore) (k : String) (v : TaskResponse) : RedisStore :=
  (k, v) :: (s.filter (fun kv => !(kv.1 == k)))

/-- Outcome of the `/tasks/submit` endpoint: either a JSON `TaskResponse`
or a raised `HTTPException`. -/
inductive SubmitOutcome where
  | ok (resp : TaskResponse)
  | httpError (e : HTTPError)
deriving DecidableEq, Repr

/-- The `submit_task` endpoint.  The whole handler body runs inside
`try: ... except Exception as e: raise HTTPException(500, "Error
submitting task: " + str(e))`, and `fastapi.HTTPException` is an
`Exception` subclass, so the inner `raise HTTPException(400, "Invalid
task")` on failed validation is caught and re-raised with status 500.
`ids` supplies the `uuid.uuid4()` draws (subtask ids), `taskId` the task's
own uuid. -/
def submit_task (ids : ℕ → String) (taskId : String) (req : TaskRequest)
    (store : RedisStore) : SubmitOutcome × RedisStore :=
  if validate_task req then
    let subtasks := plan_task ids req.task
    let response : TaskResponse :=
      { task_id := taskId, status := PENDING, subtasks := subtasks }
    (SubmitOutcome.ok response,
      storeSet store ("task:" ++ taskId) response)
  else
    (SubmitOutcome.httpError
      ⟨500, "Error submitting task: " ++
        strOfHTTPError ⟨400, "Invalid task"⟩⟩,
      store)

/-- Outcome of `redis_client.get("task:" + task_id)` inside
`get_task_status`: a value (or `None`), or a raised connection error when
the store is unreachable. -/
inductive RedisGetResult where
  | ok (v : Option TaskResponse)
  | connError (msg : String)
deriving DecidableEq, Repr

/-- The `GET /tasks/{task_id}` endpoint.  Its body also runs inside a
blanket `except Exception as e: raise HTTPException(500, str(e))` (after a
dedicated `except json.JSONDecodeError` branch), so both the inner `raise
HTTPException(404, "Task not found")` and a Redis connection error are
re-raised with status 500. -/
def get_task_status (r : RedisGetResult) :
    Except HTTPError TaskResponse :=
  match r with
  | RedisGetResult.connError msg =>
      Except.error ⟨500, msg⟩
  | RedisGetResult.ok none =>
      Except.error ⟨500, strOfHTTPError ⟨404, "Task not found"⟩⟩
  | RedisGetResult.ok (some t) =>
      Except.ok t

/-- The frontend error taxonomy (`ErrorType` in `api.ts`). -/
inductive ErrorType where
  | SERVER_ERROR
  | NETWORK_ERROR
  | REDIS_UNAVAILABLE
  | VALIDATION_ERROR
  | UNKNOWN_ERROR
deriving DecidableEq, Repr

/-- The frontend `ApiErrorResponse` record. -/
structure ApiErrorResponse where
  message : String
  type : ErrorType
  statusCode : Option ℕ := none
  retryable : Bool
deriving DecidableEq, Repr

/-- Python-style substring test on Lean strings
(JavaScript `detail.includes(pat)`). -/
def containsStr (s pat : String) : Bool :=
  hasSub pat.toList s.toList

/-- JavaScript `a || b` on strings: `b` when `a` is empty (falsy). -/
def orElseStr (a b : String) : String :=
  if a.isEmpty then b else a

/-- The frontend `handleApiError` classifier, in the branch where the
server responded with an error status (`axiosError.response` present);
`statusCode` and `detail` are the response's status and `data.detail`
(the final catch-all branch uses the caller's default message when the
detail is falsy). -/
def handleApiError (statusCode : ℕ) (detail : String) : ApiErrorResponse :=
  if statusCode == 503 &&
      (containsStr detail "Storage service" || containsStr detail "Redis")
  then
    { message :=
        "Storage service is temporarily unavailable. Some features may be limited."
      type := ErrorType.REDIS_UNAVAILABLE
      statusCode := some statusCode
      retryable := true }
  else if statusCode == 400 then
    { message := orElseStr detail "Invalid request parameters"
      type := ErrorType.VALIDATION_ERROR
      statusCode := some statusCode
      retryable := false }
  else if 500 ≤ statusCode then
    { message := orElseStr detail "Server error occurred. Please try again later."
      type := ErrorType.SERVER_ERROR
      statusCode := some statusCode
      retryable := true }
  else
    { message := orElseStr detail "request failed"
      type := ErrorType.UNKNOWN_ERROR
      statusCode := some statusCode
      retryable := decide (statusCode < 500) }

/-- A frontend execution-log entry (`LogEntry` in `TaskReplay.tsx`);
`timestamp` is the entry's wall-clock time in milliseconds
(`new Date(log.timestamp).getTime()`). -/
structure LogEntry where
  timestamp : ℚ
  action : String
  subtask_id : Option String := none
  details : Option String := none
deriving DecidableEq, Repr

/-- Default used only to translate JavaScript indexing (`logs[i]`); inside
`animate` the indices used are always in bounds. -/
def defaultEntry : LogEntry :=
  { timestamp := 0, action := "" }

/-- The mutable replay-player state of `TaskReplay`: `currentLogIndex`
(starts at `-1`), the `lastTimestampRef` (null until the first animation
frame), the visible log prefix, the displayed time in seconds, and the
`isPlaying` flag. -/
structure ReplayState where
  currentLogIndex : ℤ
  lastTimestamp : Option ℚ
  visibleLogs : List LogEntry
  currentTime : ℚ
  isPlaying : Bool
deriving DecidableEq, Repr

/-- The state of the player when playback starts. -/
def initialReplayState : ReplayState :=
  { currentLogIndex := -1, lastTimestamp := none, visibleLogs := [],
    currentTime := 0, isPlaying := true }

/-- One animation frame of the local replay loop (`animate` in
`TaskReplay.tsx`): if the frame time `t` is more than `1000 / speed`
milliseconds past the last recorded frame timestamp, the next log entry is
emitted (index advanced, visible prefix extended, displayed time set from
the entries' own timestamps); past the last entry playback stops. -/
def animate (logs : List LogEntry) (speed : ℚ) (s : ReplayState) (t : ℚ) :
    ReplayState :=
  let last := s.lastTimestamp.getD t
  let elapsed := t - last
  if 1000 / speed < elapsed then
    if s.currentLogIndex < (logs.length : ℤ) - 1 then
      let nextIndex := s.currentLogIndex + 1
      { s with
        currentLogIndex := nextIndex
        lastTimestamp := some t
        visibleLogs := logs.take (nextIndex.toNat + 1)
        currentTime :=
          ((logs.getD nextIndex.toNat defaultEntry).timestamp -
            (logs.getD 0 defaultEntry).timestamp) / 1000 }
    else
      { s with lastTimestamp := some t, isPlaying := false }
  else
    { s with lastTimestamp := some last }

/-- The player's React state relevant to speed control: the replay state
plus the current `speed` value. -/
structure PlayerState where
  replay : ReplayState
  speed : ℚ
deriving DecidableEq, Repr

/-- `handleSpeedChange`: stores the new speed (subsequent animation frames
and WebSocket sessions use it); the playback position is not touched. -/
def handleSpeedChange (newSpeed : ℚ) (p : PlayerState) : PlayerState :=
  { p with speed := newSpeed }

/-- A two-entry log whose real timestamp delta is 5000 ms. -/
def logsFarApart : List LogEntry :=
  [{ timestamp := 0, action := "started" },
   { timestamp := 5000, action := "completed" }]

/-- The state after the first animation frame at time 0 (it only records
the frame timestamp). -/
def frame1 : ReplayState := animate logsFarApart 1 initialReplayState 0

/-- The state after a frame at 1001 ms: the first entry is emitted. -/
def frame2 : ReplayState := animate logsFarApart 1 frame1 1001

/-- The state after a frame at 2002 ms: the second entry is emitted only
1001 ms after the first, although the entries are 5000 ms apart. -/
def frame3 : ReplayState := animate logsFarApart 1 frame2 2002

/-- A concrete one-subtask, submit-created task. -/
def oneSubtaskTask : TaskResponse :=
  { task_id := "c4", status := PENDING, progress := 0,
    subtasks := [mkDraft "s1" WEB_RESEARCH] }

/-- A submission whose task description is empty. -/
def emptyReq : TaskRequest := { task := [] }

/-- The connection-failure message redis-py raises when the store is
unreachable. -/
def connRefusedMsg : String :=
  "Error 111 connecting to localhost:6379. Connection refused."

/-- A subtask with its (randomly generated) id blanked, used to state
determinism of the planner up to id generation. -/
def eraseId (st : Subtask) : Subtask := { st with id := "" }

/-- C5: The planner returns an empty subtask set only if no capability
keyword matches the (lowercased) description; each occurring keyword
(research, code, analyze, write) contributes a subtask of the
corresponding capability type; and the result is deterministic given the
same description, up to the generated ids. -/
theorem claim_C5_planner_contract (ids ids2 : ℕ → String)
    (task : List Char) :
    (hasSub ("research".toList) (lowerL task) = true →
      (plan_task ids task).any (fun st => st.type == WEB_RESEARCH) = true) ∧
    (hasSub ("code".toList) (lowerL task) = true →
      (plan_task ids task).any (fun st => st.type == CODE_GENERATION) = true) ∧
    (hasSub ("analyze".toList) (lowerL task) = true →
      (plan_task ids task).any (fun st => st.type == DATA_ANALYSIS) = true) ∧
    (hasSub ("write".toList) (lowerL task) = true →
      (plan_task ids task).any (fun st => st.type == CONTENT_CREATION) = true) ∧
    (plan_task ids task = [] →
      hasSub ("research".toList) (lowerL task) = false ∧
      hasSub ("code".toList) (lowerL task) = false ∧
      hasSub ("analyze".toList) (lowerL task) = false ∧
      hasSub ("write".toList) (lowerL task) = false) ∧
    (plan_task ids task).map eraseId = (plan_task ids2 task).map eraseId := by
  by_cases h1 : hasSub ("research".toList) (lowerL task) = true <;>
  by_cases h2 : hasSub ("code".toList) (lowerL task) = true <;>
  by_cases h3 : hasSub ("analyze".toList) (lowerL task) = true <;>
  by_cases h4 : hasSub ("write".toList) (lowerL task) = true <;>
  simp_all +decide [plan_task, mkDraft, eraseId, WEB_RESEARCH,
    CODE_GENERATION, DATA_ANALYSIS, CONTENT_CREATION]

/-- Witness for C5 at the description
"do research and write code and analyze data". -/
theorem claim_C5_planner_contract_witness :
    (plan_task (fun _ => "u") ("do research and write code and analyze data".toList)).any
      (fun st => st.type == WEB_RESEARCH) = true ∧
    (plan_task (fun _ => "u") ("do research and write code and analyze data".toList)).any
      (fun st => st.type == CONTENT_CREATION) = true :=
  ⟨(claim_C5_planner_contract (fun _ => "u") (fun n => toString n)
      ("do research and write code and analyze data".toList)).1 (by decide),
   (claim_C5_planner_contract (fun _ => "u") (fun n => toString n)
      ("do research and write code and analyze data".toList)).2.2.2.1 (by decide)⟩

theorem runLoop_all_pending (rest : List Subtask) :
    ∀ (done : List Subtask) (prog : ℚ),
    (∀ st ∈ rest, st.status = PENDING) →
    runLoop done rest prog =
      (done ++ rest.map completeSub,
        if rest.isEmpty then prog
        else progressOf (done ++ rest.map completeSub)) := by
  induction rest with
  | nil => intro done prog _; simp [runLoop]
  | cons st rest ih =>
    intro done prog h
    have hst : (st.status == PENDING) = true := by
      simp [h st (by simp)]
    have hrest : ∀ x ∈ rest, x.status = PENDING := fun x hx =>
      h x (by simp [hx])
    simp only [runLoop, hst, if_true]
    rw [ih _ _ hrest]
    rcases rest with _ | ⟨y, ys⟩ <;>
      simp [List.append_assoc]

theorem completeSub_status (st : Subtask) :
    (completeSub st).status = COMPLETED := rfl

theorem countCompleted_all (l : List Subtask)
    (h : ∀ st ∈ l, st.status = COMPLETED) :
    countCompleted l = l.length := by
  unfold countCompleted
  rw [List.filter_eq_self.mpr]
  intro a ha
  simp [h a ha]

theorem progressOf_all_completed (l : List Subtask) (hne : l ≠ [])
    (h : ∀ st ∈ l, st.status = COMPLETED) : progressOf l = 1 := by
  unfold progressOf
  have hl : 0 < l.length := List.length_pos.mpr hne
  rw [countCompleted_all l h, if_pos hl]
  exact div_self (by exact_mod_cast hl.ne')

theorem executeTask_all_pending (t : TaskResponse)
    (h : ∀ st ∈ t.subtasks, st.status = PENDING)
    (hne : t.subtasks ≠ []) :
    (executeTask t).progress = 1 ∧ (executeTask t).status = COMPLETED ∧
      ∀ st ∈ (executeTask t).subtasks, st.status = COMPLETED := by
  have hcomp : ∀ st ∈ t.subtasks.map completeSub, st.status = COMPLETED := by
    intro st hst
    obtain ⟨x, _, rfl⟩ := List.mem_map.mp hst
    rfl
  have hmapne : t.subtasks.map completeSub ≠ [] := by
    simp [hne]
  have hguard : (t.subtasks.map completeSub).all
      (fun st => st.status == COMPLETED) = true := by
    rw [List.all_eq_true]
    intro st hst
    simp [hcomp st hst]
  have hempty : t.subtasks.isEmpty = false := by
    simp [hne]
  simp only [executeTask, runLoop_all_pending t.subtasks [] t.progress h,
    List.nil_append, hempty, Bool.false_eq_true, if_false, hguard, if_true]
  exact ⟨progressOf_all_completed _ hmapne hcomp, trivial, hcomp⟩

theorem executeTask_completed_only_if (t : TaskResponse)
    (hne : t.status ≠ COMPLETED)
    (hc : (executeTask t).status = COMPLETED) :
    ∀ st ∈ (executeTask t).subtasks, st.status = COMPLETED := by
  by_cases hg : (runLoop [] t.subtasks t.progress).1.all
      (fun st => st.status == COMPLETED) = true
  · simp only [executeTask, hg, if_true]
    intro st hst
    have := List.all_eq_true.mp hg st hst
    simpa using this
  · simp only [executeTask, hg, if_false] at hc
    exact absurd hc hne

/-- C1 (amended): for every task with at least one subtask, all of them
initially pending as `submit_task` creates them, execution completes every
subtask without failure and finishes with progress 1 and status
COMPLETED.  (The unamended claim fails for a task with an empty subtask
list, see the counterexample.) -/
theorem claim_C1_no_failure_completion (t : TaskResponse)
    (hp : ∀ st ∈ t.subtasks, st.status = PENDING)
    (hne : t.subtasks ≠ []) :
    (executeTask t).progress = 1 ∧ (executeTask t).status = COMPLETED ∧
      ∀ st ∈ (executeTask t).subtasks, st.status = COMPLETED :=
  executeTask_all_pending t hp hne

/-- Witness for C1 on a concrete two-subtask task. -/
theorem claim_C1_no_failure_completion_witness :
    sampleTask.subtasks.all (fun st => st.status == PENDING) = true ∧
    (executeTask sampleTask).progress = 1 :=
  ⟨by decide,
   (claim_C1_no_failure_completion sampleTask (by decide) (by decide)).1⟩

/-- Counterexample to C1 as stated: a task with an empty subtask list
(produced whenever no capability keyword matches) finishes with status
COMPLETED — all of its subtasks trivially completed without failure — yet
its progress is 0, not 1. -/
theorem claim_C1_counterexample :
    (executeTask emptySubtaskTask).status = COMPLETED ∧
    (executeTask emptySubtaskTask).subtasks.all
      (fun st => st.status == COMPLETED) = true ∧
    (executeTask emptySubtaskTask).progress ≠ 1 := by decide

/-- C3 (amended): starting from a submit-created task (status PENDING),
the orchestrator sets status COMPLETED only if every subtask of the final
state is COMPLETED; and for a task with at least one subtask (all pending
initially) the final progress is 1.  (The unamended claim fails for an
empty subtask set, see the counterexample: such a task is set COMPLETED
with progress 0.) -/
theorem claim_C3_completed_requires (t : TaskResponse)
    (hst : t.status = PENDING) :
    ((executeTask t).status = COMPLETED →
      ∀ st ∈ (executeTask t).subtasks, st.status = COMPLETED) ∧
    ((∀ st ∈ t.subtasks, st.status = PENDING) → t.subtasks ≠ [] →
      (executeTask t).progress = 1) := by
  constructor
  · intro hc
    exact executeTask_completed_only_if t (by rw [hst]; decide) hc
  · intro hp hne
    exact (executeTask_all_pending t hp hne).1

/-- Witness for C3 on a concrete two-subtask task. -/
theorem claim_C3_completed_requires_witness :
    sampleTask.status = PENDING ∧ (executeTask sampleTask).progress = 1 :=
  ⟨rfl, (claim_C3_completed_requires sampleTask rfl).2 (by decide) (by decide)⟩

/-- Counterexample to C3 as stated: the empty-subtask task is assigned
status COMPLETED although its progress is 0, not 1. -/
theorem claim_C3_counterexample :
    (executeTask emptySubtaskTask).status = COMPLETED ∧
    ¬ (executeTask emptySubtaskTask).progress = 1 := by decide

theorem countCompleted_append (a b : List Subtask) :
    countCompleted (a ++ b) = countCompleted a + countCompleted b := by
  simp [countCompleted, List.filter_append]

theorem countCompleted_cons (st : Subtask) (l : List Subtask) :
    countCompleted (st :: l) =
      (if st.status == COMPLETED then 1 else 0) + countCompleted l := by
  simp only [countCompleted, List.filter_cons]
  split <;> simp [Nat.add_comm]

theorem progressOf_nonneg (l : List Subtask) : 0 ≤ progressOf l := by
  unfold progressOf
  split
  · positivity
  · exact le_refl 0

theorem progressOf_step_le (done rest : List Subtask) (st : Subtask) :
    progressOf (done ++ st :: rest) ≤
      progressOf (done ++ completeSub st :: rest) := by
  unfold progressOf
  have hlen : (done ++ completeSub st :: rest).length =
      (done ++ st :: rest).length := by simp
  have hpos : 0 < (done ++ st :: rest).length := by
    simp only [List.length_append, List.length_cons]
    omega
  rw [hlen, if_pos hpos, if_pos hpos]
  have hcount : countCompleted (done ++ st :: rest) ≤
      countCompleted (done ++ completeSub st :: rest) := by
    simp only [countCompleted_append, countCompleted_cons, completeSub,
      beq_self_eq_true, if_true]
    split <;> omega
  gcongr

theorem loopPersisted_chain (rest : List Subtask) :
    ∀ (done : List Subtask) (prog : ℚ),
    prog ≤ progressOf (done ++ rest) →
    List.Chain' (· ≤ ·) (prog :: loopPersisted done rest prog) := by
  induction rest with
  | nil =>
    intro done prog _
    simp [loopPersisted]
  | cons st rest ih =>
    intro done prog hp
    by_cases hst : (st.status == PENDING) = true
    · simp only [loopPersisted, hst, if_true]
      rw [List.chain'_cons]
      refine ⟨le_trans hp (progressOf_step_le done rest st), ?_⟩
      apply ih
      rw [show (done ++ [completeSub st]) ++ rest =
        done ++ completeSub st :: rest by simp]
    · simp only [loopPersisted, hst, if_false]
      apply ih
      rw [show (done ++ [st]) ++ rest = done ++ st :: rest by simp]
      exact hp

theorem runLoop_snd_getLastD (rest : List Subtask) :
    ∀ (done : List Subtask) (prog : ℚ),
    (runLoop done rest prog).2 = (loopPersisted done rest prog).getLastD prog := by
  induction rest with
  | nil =>
    intro done prog
    simp [runLoop, loopPersisted]
  | cons st rest ih =>
    intro done prog
    by_cases hst : (st.status == PENDING) = true <;>
      simp only [runLoop, loopPersisted, hst, if_true, if_false]
    · rw [ih, List.getLastD_cons]
    · exact ih _ _

theorem cons_getLast?_eq (l : List ℚ) (a : ℚ) :
    (a :: l).getLast? = some (l.getLastD a) := by
  induction l generalizing a with
  | nil => rfl
  | cons b l ih =>
    rw [List.getLast?_cons_cons, ih, List.getLastD_cons]

/-- C2: starting from a freshly submitted task (persisted with progress
0), the sequence of progress values written to the store over the task's
lifetime — the initial write and every write performed by `execute_task` —
is monotonically non-decreasing. -/
theorem claim_C2_progress_monotone (t : TaskResponse)
    (h : t.progress = 0) :
    List.Chain' (· ≤ ·) (t.progress :: executeWrites t) := by
  simp only [executeWrites]
  rw [← List.cons_append, List.chain'_append]
  refine ⟨loopPersisted_chain t.subtasks [] t.progress
      (by rw [h, List.nil_append]; exact progressOf_nonneg _), ?_, ?_⟩
  · split
    · exact List.chain'_singleton _
    · exact List.chain'_nil
  · intro x hx y hy
    rw [cons_getLast?_eq, Option.mem_def, Option.some_inj] at hx
    split at hy
    · simp only [List.head?_cons, Option.mem_def, Option.some_inj] at hy
      subst hx
      rw [← hy, runLoop_snd_getLastD]
    · simp at hy

/-- Witness for C2 on a concrete two-subtask task. -/
theorem claim_C2_progress_monotone_witness :
    sampleTask.progress = 0 ∧
    List.Chain' (· ≤ ·) (sampleTask.progress :: executeWrites sampleTask) :=
  ⟨rfl, claim_C2_progress_monotone sampleTask rfl⟩

theorem loopStates_status (t0 : TaskResponse) (rest : List Subtask) :
    ∀ (done : List Subtask) (prog : ℚ),
    ∀ s ∈ loopStates t0 done rest prog, s.status = t0.status := by
  induction rest with
  | nil =>
    intro done prog s hs
    simp [loopStates] at hs
  | cons st rest ih =>
    intro done prog s hs
    by_cases hst : (st.status == PENDING) = true <;>
      simp only [loopStates, hst, if_true, if_false, List.mem_cons] at hs
    · rcases hs with hs | hs | hs
      · rw [hs]; rfl
      · rw [hs]; rfl
      · exact ih _ _ s hs
    · exact ih _ _ s hs

/-- C4 (amended): the orchestrator never sets a task's status to
IN_PROGRESS.  A submit-created task keeps status PENDING through every
observable state of `execute_task`, including every state in which a
subtask is IN_PROGRESS, and the only status ever assigned is the final
COMPLETED.  (The unamended claim — the task moves to IN_PROGRESS when the
first subtask is dispatched — fails, see the counterexample.) -/
theorem claim_C4_task_never_in_progress (t : TaskResponse)
    (hst : t.status = PENDING) :
    ∀ s ∈ executeStates t, s.status ≠ IN_PROGRESS ∧
      ((∃ st ∈ s.subtasks, st.status = IN_PROGRESS) → s.status = PENDING) := by
  intro s hs
  simp only [executeStates, List.mem_cons, List.mem_append,
    List.mem_singleton, List.not_mem_nil, or_false] at hs
  rcases hs with rfl | hs | rfl
  · refine ⟨by rw [hst]; decide, fun _ => hst⟩
  · have h := loopStates_status t t.subtasks [] t.progress s hs
    rw [h, hst]
    exact ⟨by decide, fun _ => rfl⟩
  · by_cases hg : (runLoop [] t.subtasks t.progress).1.all
        (fun st => st.status == COMPLETED) = true
    · simp only [executeTask, hg, if_true]
      refine ⟨by decide, fun hex => ?_⟩
      obtain ⟨st, hmem, hip⟩ := hex
      have hc := List.all_eq_true.mp hg st hmem
      rw [hip] at hc
      exact absurd hc (by decide)
    · have hg' : ((runLoop [] t.subtasks t.progress).1.all
          (fun st => st.status == COMPLETED)) = false := by
        simpa using hg
      simp only [executeTask, hg', Bool.false_eq_true, if_false]
      rw [hst]
      exact ⟨by decide, fun _ => rfl⟩

/-- Counterexample to C4 as stated: among the observable states of
`execute_task` on a one-subtask task there is a state whose subtask is
IN_PROGRESS (it has just been dispatched) while the task's status is still
PENDING, not IN_PROGRESS. -/
theorem claim_C4_counterexample :
    (executeStates oneSubtaskTask).any
      (fun s => (s.status == PENDING) &&
        s.subtasks.any (fun st => st.status == IN_PROGRESS)) = true := by
  decide

/-- Witness for C4 at a concrete task and state. -/
theorem claim_C4_task_never_in_progress_witness :
    oneSubtaskTask.status = PENDING ∧
    oneSubtaskTask ∈ executeStates oneSubtaskTask ∧
    oneSubtaskTask.status ≠ IN_PROGRESS :=
  ⟨rfl, by simp [executeStates],
   (claim_C4_task_never_in_progress oneSubtaskTask rfl oneSubtaskTask
     (by simp [executeStates])).1⟩

/-- C6 (code bug): submitting a task with an empty description is rejected
before planning and no task state is created — but the rejection reaches
the caller as HTTP 500 "Error submitting task: 400: Invalid task", not as
the intended 400 ValidationError: the endpoint's blanket
`except Exception` catches its own `HTTPException(400, "Invalid task")`
and re-raises it with status 500 (which the frontend `handleApiError`
then classifies as a retryable SERVER_ERROR instead of
VALIDATION_ERROR). -/
theorem claim_C6_validation_bug (ids : ℕ → String) (taskId : String)
    (store : RedisStore) :
    submit_task ids taskId emptyReq store =
      (SubmitOutcome.httpError
        ⟨500, "Error submitting task: 400: Invalid task"⟩, store) ∧
    (handleApiError 500 ("Error submitting task: 400: Invalid task")).type =
      ErrorType.SERVER_ERROR ∧
    (handleApiError 500 ("Error submitting task: 400: Invalid task")).type ≠
      ErrorType.VALIDATION_ERROR := by
  refine ⟨rfl, by decide, by decide⟩

/-- C7 (code bug): querying an existing task id returns the stored
snapshot, but an unknown id does not surface as a not-found signal and an
unreachable store does not surface as a distinct storage-unavailable
signal: the endpoint's blanket `except Exception` converts both its own
`HTTPException(404, "Task not found")` and the Redis connection error into
HTTP 500, which the frontend `handleApiError` classifies as the same
SERVER_ERROR type in both cases (the REDIS_UNAVAILABLE classification
requires a 503 that the backend never sends). -/
theorem claim_C7_not_found_bug :
    (∀ t : TaskResponse,
      get_task_status (RedisGetResult.ok (some t)) = Except.ok t) ∧
    get_task_status (RedisGetResult.ok none) =
      Except.error ⟨500, "404: Task not found"⟩ ∧
    get_task_status (RedisGetResult.connError connRefusedMsg) =
      Except.error ⟨500, connRefusedMsg⟩ ∧
    (handleApiError 500 ("404: Task not found")).type =
      ErrorType.SERVER_ERROR ∧
    (handleApiError 500 connRefusedMsg).type = ErrorType.SERVER_ERROR ∧
    (handleApiError 500 ("404: Task not found")).type ≠
      ErrorType.REDIS_UNAVAILABLE :=
  ⟨fun _ => rfl, rfl, rfl, by decide, by decide, by decide⟩

/-- C9 (amended): in the local replay animation the delay between
consecutive emitted entries is governed by the fixed threshold
`1000 / speed` milliseconds — independent of the entries' real timestamp
deltas: a frame advances the log index exactly when more than
`1000 / speed` ms of frame time have elapsed since the last advance and
entries remain.  Changing the speed applies to subsequent frames without
restarting the session: `handleSpeedChange` stores the new speed and
leaves the playback position (index and visible prefix) untouched.  (The
unamended claim — delay equal to the entries' timestamp delta divided by
speed — fails, see the counterexample.) -/
theorem claim_C9_replay_delay (logs : List LogEntry) (speed : ℚ)
    (s : ReplayState) (l t : ℚ) (h : s.lastTimestamp = some l) :
    ((animate logs speed s t).currentLogIndex = s.currentLogIndex + 1 ↔
      (1000 / speed < t - l ∧
        s.currentLogIndex < (logs.length : ℤ) - 1)) ∧
    (∀ (ns : ℚ) (p : PlayerState),
      (handleSpeedChange ns p).speed = ns ∧
      (handleSpeedChange ns p).replay.currentLogIndex =
        p.replay.currentLogIndex ∧
      (handleSpeedChange ns p).replay.visibleLogs = p.replay.visibleLogs) := by
  constructor
  · simp only [animate, h, Option.getD_some]
    constructor
    · intro hadv
      by_cases h1 : 1000 / speed < t - l
      · by_cases h2 : s.currentLogIndex < (logs.length : ℤ) - 1
        · exact ⟨h1, h2⟩
        · rw [if_pos h1, if_neg h2] at hadv
          simp at hadv
      · rw [if_neg h1] at hadv
        simp at hadv
    · rintro ⟨h1, h2⟩
      rw [if_pos h1, if_pos h2]
  · intro ns p
    exact ⟨rfl, rfl, rfl⟩

/-- Witness for C9: at speed 1, from the state after the first frame, a
frame 1001 ms later advances the index (the threshold is 1000 ms,
regardless of the 5000 ms gap between the two log entries). -/
theorem claim_C9_replay_delay_witness :
    frame1.lastTimestamp = some 0 ∧
    ((animate logsFarApart 1 frame1 1001).currentLogIndex =
        frame1.currentLogIndex + 1 ↔
      (1000 / 1 < (1001 : ℚ) - 0 ∧
        frame1.currentLogIndex < (logsFarApart.length : ℤ) - 1)) :=
  ⟨by norm_num [frame1, animate, initialReplayState, logsFarApart],
   (claim_C9_replay_delay logsFarApart 1 frame1 0 1001
     (by norm_num [frame1, animate, initialReplayState, logsFarApart])).1⟩

/-- Counterexample to C9 as stated: with two log entries 5000 ms apart and
speed 1, the claimed inter-entry delay is 5000 ms, but the code emits the
second entry on a frame only 1001 ms after the first was emitted. -/
theorem claim_C9_counterexample :
    frame2.currentLogIndex = 0 ∧
    frame2.lastTimestamp = some 1001 ∧
    frame3.currentLogIndex = 1 ∧
    frame3.visibleLogs = logsFarApart ∧
    ((2002 : ℚ) - 1001 <
      ((logsFarApart.getD 1 defaultEntry).timestamp -
        (logsFarApart.getD 0 defaultEntry).timestamp) / 1) := by
  norm_num [frame3, frame2, frame1, animate, initialReplayState,
    logsFarApart, defaultEntry]

/-- C10: every planner draft starts with status PENDING, progress 0 and no
result or error; the drafts have pairwise distinct capability types (at
most one subtask per type), and there are at most four of them. -/
theorem claim_C10_planner_drafts (ids : ℕ → String) (task : List Char) :
    (plan_task ids task).all
      (fun st => st.status == PENDING && st.progress == 0 &&
        st.result == none && st.error == none) = true ∧
    (plan_task ids task).Pairwise (fun a b => a.type ≠ b.type) ∧
    (plan_task ids task).length ≤ 4 := by
  by_cases h1 : hasSub ("research".toList) (lowerL task) = true <;>
  by_cases h2 : hasSub ("code".toList) (lowerL task) = true <;>
  by_cases h3 : hasSub ("analyze".toList) (lowerL task) = true <;>
  by_cases h4 : hasSub ("write".toList) (lowerL task) = true <;>
  simp_all +decide [plan_task, mkDraft, PENDING, WEB_RESEARCH,
    CODE_GENERATION, DATA_ANALYSIS, CONTENT_CREATION]
